import Mathlib

/-!
Shallow embedding of the Wingman-Monitor error-capture-and-report pipeline
(`src/utils/errorFiltering.ts`, the `WingmanMonitor` class in the monitor
module, and `ConfigManager` in `config.ts`), together with theorems checking
the natural-language specification against it.

Modelling conventions:
* JavaScript strings are Lean `String`s; `String.prototype.includes` is
  `containsSubstr` below (substring containment on the character list).
* Epoch-millisecond timestamps (`Date.now()`) are `Nat` (they are non-negative
  in every real execution); where the source subtracts timestamps the result
  is computed in `Int`, matching JavaScript number arithmetic.
* `undefined`/absent values are `Option`; `x === v` on a possibly-undefined
  field is equality with `some v`.
* Effects (console output, the webhook POST) are reified as a list of emitted
  `Event`s; the outcome of the single `axios.post` call is an oracle argument
  (`HttpOutcome`), since the network is outside the program.
* JavaScript function identity (needed for `process.removeListener` and for
  restoring saved handlers) is modelled by `FuncV`: `.bind(this)` and each
  arrow-function wrapper allocate a fresh function object, distinct from the
  unbound method reference and from every previously existing function.
-/

/-- `pat` occurs as a contiguous substring of `s`
(JavaScript `s.includes(pat)`). -/
def containsSubstr (s pat : String) : Bool :=
  decide (pat.data <:+: s.data)

/-- The `context` argument of `shouldReportError`: only its `status` field is
consulted (`context?.status === 0`); `status` is `none` when the field is
absent or not a number. -/
structure FilterContext where
  status : Option Int
deriving DecidableEq, Repr

/-- `shouldReportError` from `src/utils/errorFiltering.ts`: `nodeEnv` is
`process.env.NODE_ENV` (`none` when unset), `errorMessage` is
`error.message`, `context` is the optional context argument. -/
def shouldReportError (nodeEnv : Option String) (errorMessage : String)
    (context : Option FilterContext) : Bool :=
  if nodeEnv == some ("development") then false
  else if containsSubstr errorMessage ("chrome-extension://") then false
  else if containsSubstr errorMessage ("Failed to fetch")
          && ((context.bind FilterContext.status) == some 0) then false
  else if containsSubstr errorMessage ("Script error") then false
  else true

/-- The filtering policy exactly as the specification words it, rule 4 being
an equality test ("message equals a known ad-blocker script-loading error
marker"). Written from the spec, for comparison with `shouldReportError`. -/
def specShouldReport (nodeEnv : Option String) (errorMessage : String)
    (context : Option FilterContext) : Bool :=
  if nodeEnv == some ("development") then false
  else if containsSubstr errorMessage ("chrome-extension://") then false
  else if containsSubstr errorMessage ("Failed to fetch")
          && ((context.bind FilterContext.status) == some 0) then false
  else if errorMessage == "Script error" then false
  else true

/-- The policy with rule 4 amended to a containment test, matching
`error.message.includes('Script error')` in the source. -/
def specShouldReportAmended (nodeEnv : Option String) (errorMessage : String)
    (context : Option FilterContext) : Bool :=
  if nodeEnv == some ("development") then false
  else if containsSubstr errorMessage ("chrome-extension://") then false
  else if containsSubstr errorMessage ("Failed to fetch")
          && ((context.bind FilterContext.status) == some 0) then false
  else if containsSubstr errorMessage ("Script error") then false
  else true

/-- C2, counterexample: in a production classification, the message
`"AScript error!"` contains but does not equal the marker `"Script error"`;
the code rejects it while the claimed policy (rule 4 as equality) accepts. -/
theorem c2_counterexample :
    shouldReportError (some ("production")) "AScript error!" none = false ∧
    specShouldReport (some ("production")) "AScript error!" none = true := by
  constructor <;> decide

/-- C2 (amended): `shouldReportError` applies the claimed ordered policy with
rule 4 read as containment rather than equality; in particular any
development classification yields `false` regardless of content. -/
theorem c2_policy_amended (nodeEnv : Option String) (errorMessage : String)
    (context : Option FilterContext) :
    shouldReportError nodeEnv errorMessage context
      = specShouldReportAmended nodeEnv errorMessage context ∧
    (nodeEnv = some ("development") →
      shouldReportError nodeEnv errorMessage context = false) := by
  constructor
  · rfl
  · intro h
    simp [shouldReportError, h]

/-- Witness for `c2_policy_amended` at a concrete input. -/
theorem c2_policy_amended_witness :
    shouldReportError (some ("development")) "boom" none
      = specShouldReportAmended (some ("development")) "boom" none ∧
    (some ("development") = (some ("development") : Option String) →
      shouldReportError (some ("development")) "boom" none = false) :=
  c2_policy_amended (some ("development")) "boom" none

/-- A console argument as the monitor sees it: a string, an integral number,
or an object modelled by the result of `JSON.stringify(arg, null, 2)`
(`none` when stringification throws, e.g. on a circular structure). -/
inductive JsArg
  | str (s : String)
  | num (n : Int)
  | obj (pretty : Option String)
deriving DecidableEq, Repr

/-- Serialization of one console argument in `captureConsoleLog`:
`typeof arg === 'object' ? JSON.stringify(arg, null, 2) : String(arg)`,
with the catch branch yielding `'[Circular Object]'`. -/
def serializeConsoleArg : JsArg → String
  | .str s => s
  | .num n => toString n
  | .obj (some j) => j
  | .obj none => "[Circular Object]"

/-- One entry of the monitor's `recentLogs` buffer. -/
structure LogEntry where
  type : String
  message : String
  timestamp : Nat
  args : List JsArg
deriving DecidableEq, Repr

/-- `maxLogs` field of `WingmanMonitor`. -/
def maxLogs : Nat := 50

/-- `captureConsoleLog` acting on the `recentLogs` list: builds the entry,
pushes it, and if the length now exceeds `maxLogs` shifts off the single
oldest entry. -/
def captureConsoleLog (logs : List LogEntry) (type : String)
    (args : List JsArg) (now : Nat) : List LogEntry :=
  let logEntry : LogEntry :=
    { type := type
      message := String.intercalate (" ") (args.map serializeConsoleArg)
      timestamp := now
      args := args }
  let logs := logs ++ [logEntry]
  if logs.length > maxLogs then logs.tail else logs

/-- Two-digit zero padding. -/
def pad2 (n : Nat) : String :=
  if n < 10 then ("0") ++ toString n else toString n

/-- Three-digit zero padding. -/
def pad3 (n : Nat) : String :=
  if n < 10 then ("00") ++ toString n
  else if n < 100 then ("0") ++ toString n
  else toString n

/-- Four-digit zero padding. -/
def pad4 (n : Nat) : String :=
  if n < 10 then ("000") ++ toString n
  else if n < 100 then ("00") ++ toString n
  else if n < 1000 then ("0") ++ toString n
  else toString n

/-- Proleptic-Gregorian `(year, month, day)` from a count of days since
1970-01-01 (civil-from-days algorithm, non-negative days). -/
def civilFromDays (z0 : Nat) : Nat × Nat × Nat :=
  let z := z0 + 719468
  let era := z / 146097
  let doe := z % 146097
  let yoe := (doe - doe / 1460 + doe / 36524 - doe / 146096) / 365
  let y := yoe + era * 400
  let doy := doe - (365 * yoe + yoe / 4 - yoe / 100)
  let mp := (5 * doy + 2) / 153
  let d := doy - (153 * mp + 2) / 5 + 1
  let mth := if mp < 10 then mp + 3 else mp - 9
  (if mth ≤ 2 then y + 1 else y, mth, d)

/-- `new Date(ms).toISOString()` for a non-negative epoch-millisecond
timestamp within years 1970–9999 (the range every real `Date.now()` value
inhabits): `YYYY-MM-DDTHH:MM:SS.mmmZ`. -/
def toISOString (ms : Nat) : String :=
  let msOfDay := ms % 86400000
  let ymd := civilFromDays (ms / 86400000)
  pad4 ymd.1 ++ "-" ++ pad2 ymd.2.1 ++ "-" ++ pad2 ymd.2.2 ++
    "T" ++ pad2 (msOfDay / 3600000) ++ ":" ++ pad2 (msOfDay % 3600000 / 60000) ++
    ":" ++ pad2 (msOfDay % 60000 / 1000) ++ "." ++ pad3 (msOfDay % 1000) ++ "Z"

/-- `s.toUpperCase()` character by character (the buffer's `type` strings are
ASCII, where JavaScript and `Char.toUpper` agree). -/
def jsToUpperCase (s : String) : String :=
  String.mk (s.data.map Char.toUpper)

/-- The line `getRelevantLogs` appends for one buffer entry. -/
def formatLogLine (log : LogEntry) : String :=
  "[" ++ toISOString log.timestamp ++ "] " ++ jsToUpperCase log.type ++ ": " ++
    log.message ++ "\n"

/-- Header prepended by `getRelevantLogs` when at least one entry matches. -/
def logContextHeader : String := "\n\n--- Recent Console Activity ---\n"

/-- The filter predicate of `getRelevantLogs`:
`log.timestamp >= startTime && log.timestamp <= errorTimestamp` with
`startTime = errorTimestamp - windowMs` computed in JavaScript (`Int`)
arithmetic. -/
def inWindow (errorTimestamp windowMs : Nat) (log : LogEntry) : Bool :=
  (errorTimestamp : Int) - (windowMs : Int) ≤ (log.timestamp : Int)
    && (log.timestamp : Int) ≤ (errorTimestamp : Int)

/-- `getRelevantLogs` acting on the `recentLogs` list: a pure query (the
source neither reassigns `recentLogs` nor calls a mutating array method on
it), returning the empty string when no entry is in the window and otherwise
the header followed by one formatted line per matching entry, in buffer
order. -/
def getRelevantLogs (logs : List LogEntry) (errorTimestamp : Nat)
    (windowMs : Nat) : String :=
  let relevantLogs := logs.filter (inWindow errorTimestamp windowMs)
  if relevantLogs.isEmpty then ("")
  else relevantLogs.foldl (fun acc log => acc ++ formatLogLine log)
    logContextHeader

theorem captureConsoleLog_length_le (logs : List LogEntry) (type : String)
    (args : List JsArg) (now : Nat) (h : logs.length ≤ maxLogs) :
    (captureConsoleLog logs type args now).length ≤ maxLogs := by
  simp only [captureConsoleLog]
  split
  · simpa using h
  · next hn =>
    simp only [List.length_append, List.length_cons, List.length_nil] at hn ⊢
    omega

theorem foldl_capture_length (ops : List (String × List JsArg × Nat))
    (logs : List LogEntry) (h : logs.length ≤ maxLogs) :
    (ops.foldl (fun l op => captureConsoleLog l op.1 op.2.1 op.2.2)
      logs).length ≤ maxLogs := by
  induction ops generalizing logs with
  | nil => simpa using h
  | cons op ops ih => exact ih _ (captureConsoleLog_length_le _ _ _ _ h)

/-- The entry produced by recording `console.log(i)` at time `i`. -/
def mkNumEntry (i : Nat) : LogEntry :=
  { type := "log"
    message := toString (Int.ofNat i)
    timestamp := i
    args := [.num (Int.ofNat i)] }

/-- The buffer after recording `console.log(0), ..., console.log(50)` (51
sequential records) starting from an empty buffer. -/
def insert51 : List LogEntry :=
  (List.range 51).foldl
    (fun l i => captureConsoleLog l ("log") [.num (Int.ofNat i)] i) []

set_option maxRecDepth 100000 in
/-- C3: starting from the empty buffer, no sequence of record operations ever
leaves more than 50 entries; after 51 sequential inserts the first-inserted
entry is absent and the newest 50 remain in insertion order (eviction is a
single `shift` of the oldest entry). -/
theorem c3_ring_buffer_capacity_fifo :
    (∀ ops : List (String × List JsArg × Nat),
      (ops.foldl (fun l op => captureConsoleLog l op.1 op.2.1 op.2.2)
        []).length ≤ maxLogs) ∧
    insert51 = ((List.range 51).drop 1).map mkNumEntry ∧
    mkNumEntry 0 ∉ insert51 ∧
    insert51.length = 50 := by
  refine ⟨fun ops => foldl_capture_length ops [] (by simp [maxLogs]), ?_, ?_, ?_⟩
  · decide
  · decide
  · decide

/-- Concatenation of the formatted lines of a list of entries, in order. -/
def linesText : List LogEntry → String
  | [] => ""
  | l :: ls => formatLogLine l ++ linesText ls

theorem foldl_formatLogLine (l : List LogEntry) (b : String) :
    l.foldl (fun acc log => acc ++ formatLogLine log) b = b ++ linesText l := by
  induction l generalizing b with
  | nil => simp [linesText]
  | cons x xs ih => simp [linesText, ih, String.append_assoc]

/-- C4: the window query is a pure function of the buffer (it takes the
buffer and returns a string, mutating nothing); it returns the empty string
when no entry's timestamp lies in `[t - windowMs, t]`, and otherwise the
header followed by one `[ISO-time] KIND: message` line per matching entry;
the matching entries are exactly those with timestamp in the inclusive
interval, kept in buffer (oldest-first) order; concretely, with `t = 6000`
an entry at `999 = t - 5001` is excluded, one at `1000 = t - 5000` is
included, and the full output has the claimed line format. -/
theorem c4_window_query (logs : List LogEntry) (t : Nat) :
    (getRelevantLogs logs t 5000
      = if (logs.filter (inWindow t 5000)).isEmpty then ("")
        else logContextHeader ++ linesText (logs.filter (inWindow t 5000))) ∧
    (∀ e : LogEntry,
      inWindow t 5000 e
        = ((t : Int) - 5000 ≤ (e.timestamp : Int)
            && (e.timestamp : Int) ≤ (t : Int))) ∧
    (logs.filter (inWindow t 5000)).Sublist logs ∧
    (([⟨"log", "early", 999, []⟩, ⟨"error", "boom", 1000, []⟩]
        : List LogEntry).filter (inWindow 6000 5000)
      = [⟨"error", "boom", 1000, []⟩]) ∧
    getRelevantLogs [⟨"log", "early", 999, []⟩] 6000 5000 = "" ∧
    getRelevantLogs [⟨"error", "boom", 1000, []⟩] 6000 5000
      = "\n\n--- Recent Console Activity ---\n" ++
        "[1970-01-01T00:00:01.000Z] ERROR: boom\n" := by
  refine ⟨?_, fun e => rfl, List.filter_sublist logs, by decide, by decide, ?_⟩
  · simp only [getRelevantLogs, foldl_formatLogLine]
  · decide

/-- `WingmanConfig` from `config.ts` (`enabled` and `createdAt` are optional
fields there). -/
structure WingmanConfig where
  accessToken : String
  projectId : Option String
  environment : String
  projectPath : String
  enabled : Option Bool
  createdAt : Option String
deriving DecidableEq, Repr

/-- In-memory state of `ConfigManager` (the `configPath` string plays no role
in the claims; the filesystem is an oracle argument to `load`). -/
structure ConfigManagerState where
  config : Option WingmanConfig
deriving DecidableEq, Repr

/-- Outcome of the filesystem interaction inside `ConfigManager.load`:
the file is absent (`pathExists` false), some filesystem/parse call threw
(`pathExists` or `readJson`; in both cases the `this.config` assignment has
not happened), or the file parsed to a config. -/
inductive FsLoadResult
  | absent
  | fsFailure (e : String)
  | ok (cfg : WingmanConfig)
deriving DecidableEq, Repr

/-- `ConfigManager.load`: on success stores and returns the parsed config; on
absence returns `null`; on a thrown error logs (the returned strings are the
`console.error` lines) and returns `null`. The stored config is only
reassigned in the success case. -/
def ConfigManager.load (st : ConfigManagerState) (r : FsLoadResult) :
    ConfigManagerState × Option WingmanConfig × List String :=
  match r with
  | .absent => (st, none, [])
  | .fsFailure e => (st, none, ["Failed to load Wingman config: " ++ e])
  | .ok cfg => ({ st with config := some cfg }, some cfg, [])

/-- `ConfigManager.getConfig`. -/
def ConfigManager.getConfig (st : ConfigManagerState) : Option WingmanConfig :=
  st.config

/-- `ConfigManager.isEnabled`: `this.config?.enabled === true`. -/
def ConfigManager.isEnabled (st : ConfigManagerState) : Bool :=
  (st.config.bind WingmanConfig.enabled) == some true

/-- The three console slots the monitor intercepts. -/
inductive ConsoleKind
  | errorK
  | warnK
  | logK
deriving DecidableEq, Repr

/-- The monitor methods that get installed as handlers. -/
inductive MethodName
  | uncaught
  | unhandledRej
  | winError
  | winUnhandledRej
deriving DecidableEq, Repr

/-- A JavaScript function value, up to identity: a pre-existing host
function, an unbound method reference (`this.handleX`), a `.bind(this)` copy
(fresh object per call), or one of the arrow-function console wrappers
(fresh object per `setupErrorHandlers` run). -/
inductive FuncV
  | hostFn (n : Nat)
  | methodRef (m : MethodName)
  | bound (m : MethodName) (id : Nat)
  | wrapper (k : ConsoleKind) (id : Nat)
deriving DecidableEq, Repr

/-- The two process-level events the monitor subscribes to. -/
inductive ProcEvent
  | uncaughtException
  | unhandledRejection
deriving DecidableEq, Repr

/-- The process-wide mutable slots the monitor touches. `hasProcess` and
`hasWindow` model the `typeof process/window !== 'undefined'` runtime
checks; `nextId` allocates fresh function identities. -/
structure GlobalState where
  hasProcess : Bool
  hasWindow : Bool
  processListeners : List (ProcEvent × FuncV)
  windowOnError : Option FuncV
  windowOnUnhandledRejection : Option FuncV
  consoleError : FuncV
  consoleWarn : FuncV
  consoleLog : FuncV
  nextId : Nat
deriving DecidableEq, Repr

/-- The mutable fields of a `WingmanMonitor` instance. -/
structure MonitorState where
  config : Option WingmanConfig
  isStarted : Bool
  originalErrorHandler : Option FuncV
  originalUnhandledRejectionHandler : Option FuncV
  originalConsoleError : FuncV
  originalConsoleWarn : FuncV
  originalConsoleLog : FuncV
  recentLogs : List LogEntry
deriving DecidableEq, Repr

/-- The `WingmanMonitor` constructor: no config, not started, and the
current console functions saved as the originals. -/
def initialMonitor (g : GlobalState) : MonitorState :=
  { config := none
    isStarted := false
    originalErrorHandler := none
    originalUnhandledRejectionHandler := none
    originalConsoleError := g.consoleError
    originalConsoleWarn := g.consoleWarn
    originalConsoleLog := g.consoleLog
    recentLogs := [] }

/-- `setupErrorHandlers`: registers `.bind(this)` copies of the process
handlers, saves and replaces the window handlers where a window exists, and
saves and replaces the three console functions with fresh wrappers. -/
def setupErrorHandlers (m : MonitorState) (g : GlobalState) :
    MonitorState × GlobalState :=
  let gp := if g.hasProcess then
      { g with
        processListeners := g.processListeners ++
          [(.uncaughtException, .bound .uncaught g.nextId),
           (.unhandledRejection, .bound .unhandledRej (g.nextId + 1))]
        nextId := g.nextId + 2 }
    else g
  let m1 := if gp.hasWindow then
      { m with
        originalErrorHandler := gp.windowOnError
        originalUnhandledRejectionHandler := gp.windowOnUnhandledRejection }
    else m
  let g2 := if gp.hasWindow then
      { gp with
        windowOnError := some (.bound .winError gp.nextId)
        windowOnUnhandledRejection := some (.bound .winUnhandledRej (gp.nextId + 1))
        nextId := gp.nextId + 2 }
    else gp
  let m2 := { m1 with
    originalConsoleError := g2.consoleError
    originalConsoleWarn := g2.consoleWarn
    originalConsoleLog := g2.consoleLog }
  let g3 := { g2 with
    consoleError := .wrapper .errorK g2.nextId
    consoleWarn := .wrapper .warnK (g2.nextId + 1)
    consoleLog := .wrapper .logK (g2.nextId + 2)
    nextId := g2.nextId + 3 }
  (m2, g3)

/-- `process.removeListener`: removes at most one listener for the event
whose function value is identical to `f`, the most recently added match. -/
def removeListenerLast (ls : List (ProcEvent × FuncV)) (ev : ProcEvent)
    (f : FuncV) : List (ProcEvent × FuncV) :=
  (ls.reverse.eraseP (fun p => p.1 == ev && p.2 == f)).reverse

/-- `removeErrorHandlers`: calls `process.removeListener` with the *unbound*
method references, restores the window handlers where a non-null one was
saved, and — as in the source — does not touch the console slots. -/
def removeErrorHandlers (m : MonitorState) (g : GlobalState) : GlobalState :=
  let afterRemove :=
    removeListenerLast
      (removeListenerLast g.processListeners .uncaughtException
        (.methodRef .uncaught))
      .unhandledRejection (.methodRef .unhandledRej)
  let g1 := if g.hasProcess then
      { g with processListeners := afterRemove }
    else g
  if g1.hasWindow then
    let g2 := match m.originalErrorHandler with
      | some f => { g1 with windowOnError := some f }
      | none => g1
    match m.originalUnhandledRejectionHandler with
    | some f => { g2 with windowOnUnhandledRejection := some f }
    | none => g2
  else g1

/-- The `severity` enumeration of `ErrorReport`. -/
inductive Severity
  | low
  | medium
  | high
  | critical
deriving DecidableEq, Repr

/-- `projectInfo` of an `ErrorReport` (best-effort `package.json` read; all
fields optional, an empty object on any failure). -/
structure ProjectInfo where
  name : Option String
  version : Option String
  url : Option String
deriving DecidableEq, Repr

/-- The `ErrorReport` interface of the monitor module. `metadata` is an
opaque string-keyed record. -/
structure ErrorReport where
  message : String
  errorType : String
  severity : Severity
  environment : String
  accessToken : String
  timestamp : Nat
  stack : Option String
  projectInfo : Option ProjectInfo
  metadata : Option (List (String × String))
deriving DecidableEq, Repr

/-- The delivery envelope `reportError` POSTs. Its `data` object copies the
nine `ErrorReport` fields one for one, so it is carried as an `ErrorReport`
here. -/
structure Payload where
  event : String
  data : ErrorReport
  timestamp : Nat
  source : String
deriving DecidableEq, Repr

/-- Observable effects of a monitor operation: console output through the
original console functions, and the webhook POST. -/
inductive Event
  | consoleLogEv (msg : String)
  | consoleWarnEv (msg : String)
  | consoleErrorEv (msg : String)
  | post (url : String) (payload : Payload)
deriving DecidableEq, Repr

/-- `start()`: stores the load result in `this.config` first, then bails out
on a missing config, a disabled config, or an already-started monitor, and
otherwise installs the handlers and sets the started flag. `loaded` is the
value `configManager.load()` resolved to. -/
def start (m : MonitorState) (g : GlobalState) (loaded : Option WingmanConfig) :
    MonitorState × GlobalState × List Event :=
  let m := { m with config := loaded }
  match loaded with
  | none =>
    (m, g, [.consoleWarnEv
      ("Wingman: No configuration found. Run \"wingman init <accessToken>\" first.")])
  | some cfg =>
    if cfg.enabled != some true then
      (m, g, [.consoleLogEv ("Wingman: Monitoring is disabled.")])
    else if m.isStarted then
      (m, g, [.consoleWarnEv ("Wingman: Already started.")])
    else
      let mg := setupErrorHandlers m g
      ({ mg.1 with isStarted := true }, mg.2,
        [.consoleLogEv ("Wingman: Monitoring started for " ++ cfg.environment
          ++ " environment")])

/-- `stop()`: no-op unless started; otherwise removes the handlers and
clears the started flag. -/
def stop (m : MonitorState) (g : GlobalState) :
    MonitorState × GlobalState × List Event :=
  if !m.isStarted then (m, g, [])
  else
    ({ m with isStarted := false }, removeErrorHandlers m g,
      [.consoleLogEv ("Wingman: Monitoring stopped")])

/-- `isActive()`: `this.isStarted && this.config?.enabled === true`. -/
def isActive (m : MonitorState) : Bool :=
  m.isStarted && ((m.config.bind WingmanConfig.enabled) == some true)

/-- JavaScript `s || dflt` for a possibly-undefined string: the default is
taken when the value is absent or the empty string (both falsy). -/
def jsOrString (s : Option String) (dflt : String) : String :=
  match s with
  | some v => if v == "" then dflt else v
  | none => dflt

/-- Outcome of the single `axios.post` call: resolved (2xx), or rejected
with a non-2xx status, a network error, or the 5-second timeout. -/
inductive HttpOutcome
  | success
  | httpFailure (status : Nat)
  | networkFailure (msg : String)
  | timeoutFailure
deriving DecidableEq, Repr

/-- The message of the error `axios` rejects with, as it prints. -/
def axiosErrorMessage : HttpOutcome → String
  | .success => ""
  | .httpFailure status => "Request failed with status code " ++ toString status
  | .networkFailure msg => msg
  | .timeoutFailure => "timeout of 5000ms exceeded"

/-- The fixed default webhook endpoint in `reportError`. -/
def defaultWebhookUrl : String := "https://patchworks-sigma.vercel.app/webhook"

/-- Whether an event is the webhook POST. -/
def isPost : Event → Bool
  | .post _ _ => true
  | _ => false

/-- The envelope `reportError` builds from a report. -/
def mkPayload (errorReport : ErrorReport) : Payload :=
  { event := "error.runtime"
    data := errorReport
    timestamp := errorReport.timestamp
    source := "wingman-monitor" }

/-- `reportError`: returns immediately when no config is loaded; otherwise
resolves the webhook URL (`WINGMAN_WEBHOOK_URL` or the default), issues the
single POST, and logs success, or — in the catch branch — logs the failure.
Its body is one try/catch, so it returns normally (a plain event list, no
exception) on every outcome. `webhookUrlEnv` is `process.env.WINGMAN_WEBHOOK_URL`. -/
def reportError (config : Option WingmanConfig) (webhookUrlEnv : Option String)
    (errorReport : ErrorReport) (outcome : HttpOutcome) : List Event :=
  match config with
  | none => []
  | some _ =>
    let webhookUrl := jsOrString webhookUrlEnv defaultWebhookUrl
    match outcome with
    | .success =>
      [.post webhookUrl (mkPayload errorReport),
       .consoleLogEv ("Wingman: Error reported successfully")]
    | o =>
      [.post webhookUrl (mkPayload errorReport),
       .consoleErrorEv ("Wingman: Failed to report error: "
         ++ axiosErrorMessage o)]

/-- The `errorContext` object handed to `buildComprehensiveMessage` (only
its `stack`, `url` and `userAgent` fields are read there). -/
structure ErrorContext where
  stack : Option String
  url : Option String
  userAgent : Option String
deriving DecidableEq, Repr

/-- `buildComprehensiveMessage`: the primary message, then the recent-log
window ending now, then the URL / user-agent context block, then the stack
trace, each appended only when present (JavaScript truthiness: absent or
empty strings are skipped). -/
def buildComprehensiveMessage (recentLogs : List LogEntry)
    (primaryMessage : String) (errorContext : ErrorContext) (now : Nat) :
    String :=
  let relevantLogs := getRelevantLogs recentLogs now 5000
  let message := if relevantLogs == "" then primaryMessage
    else primaryMessage ++ relevantLogs
  let message := match errorContext.url with
    | some u => if u == "" then message
        else message ++ "\n\n--- Context ---\nURL: " ++ u
    | none => message
  let message := match errorContext.userAgent with
    | some ua => if ua == "" then message
        else message ++ "\nUser Agent: " ++ ua
    | none => message
  match errorContext.stack with
  | some st => if st == "" then message
      else message ++ "\n\n--- Stack Trace ---\n" ++ st
  | none => message

/-- `window.location?.href` and `navigator?.userAgent`, present only when a
window surface exists. -/
structure WindowInfo where
  url : Option String
  userAgent : Option String
deriving DecidableEq, Repr

/-- The `ErrorReport` literal `reportCustomError` passes to `reportError`:
severity `medium`, errorType `customError`, environment and accessToken
defaulted from the loaded config with `|| 'unknown'` / `|| ''`. `pinfo` is
the result of the best-effort `getProjectInfo()` read. -/
def customErrorReport (m : MonitorState) (errMessage : String)
    (errStack : Option String) (metadata : Option (List (String × String)))
    (now : Nat) (win : Option WindowInfo) (pinfo : ProjectInfo) :
    ErrorReport :=
  { message := buildComprehensiveMessage m.recentLogs errMessage
      { stack := errStack
        url := win.bind WindowInfo.url
        userAgent := win.bind WindowInfo.userAgent } now
    stack := errStack
    timestamp := now
    environment := jsOrString (m.config.map WingmanConfig.environment)
      "unknown"
    projectInfo := some pinfo
    errorType := "customError"
    severity := .medium
    accessToken := jsOrString (m.config.map WingmanConfig.accessToken) ""
    metadata := metadata }

/-- `reportCustomError(error, metadata)`: builds the comprehensive message
and the report and hands it straight to `reportError` — no filter, no
started check. -/
def reportCustomError (m : MonitorState) (errMessage : String)
    (errStack : Option String) (metadata : Option (List (String × String)))
    (now : Nat) (win : Option WindowInfo) (pinfo : ProjectInfo)
    (webhookUrlEnv : Option String) (outcome : HttpOutcome) : List Event :=
  reportError m.config webhookUrlEnv
    (customErrorReport m errMessage errStack metadata now win pinfo) outcome

theorem reportCustomError_posts (m : MonitorState) (errMessage : String)
    (errStack : Option String) (metadata : Option (List (String × String)))
    (now : Nat) (win : Option WindowInfo) (pinfo : ProjectInfo)
    (webhookUrlEnv : Option String) (outcome : HttpOutcome) :
    (reportCustomError m errMessage errStack metadata now win pinfo
        webhookUrlEnv outcome).countP isPost
      = if m.config.isSome then 1 else 0 := by
  cases h : m.config with
  | none => simp [reportCustomError, reportError, h]
  | some _ =>
    cases outcome <;>
      simp [reportCustomError, reportError, h, isPost, List.countP,
        List.countP.go]

/-- A concrete enabled production config. -/
def cfgA : WingmanConfig :=
  { accessToken := "tokenA"
    projectId := none
    environment := "production"
    projectPath := "/proj"
    enabled := some true
    createdAt := none }

/-- Like `cfgA` but with a different access token. -/
def cfgB : WingmanConfig := { cfgA with accessToken := "tokenB" }

/-- A concrete config with `enabled: false`. -/
def cfgDisabled : WingmanConfig := { cfgA with enabled := some false }

/-- A concrete Node-like global state: process surface present, no window. -/
def g0 : GlobalState :=
  { hasProcess := true
    hasWindow := false
    processListeners := []
    windowOnError := none
    windowOnUnhandledRejection := none
    consoleError := .hostFn 0
    consoleWarn := .hostFn 1
    consoleLog := .hostFn 2
    nextId := 10 }

/-- Empty project info (the `getProjectInfo` failure value). -/
def pinfoEmpty : ProjectInfo := { name := none, version := none, url := none }

/-- A fresh monitor started in `g0` with the enabled config `cfgA`. -/
def startedMonitorA : MonitorState × GlobalState × List Event :=
  start (initialMonitor g0) g0 (some cfgA)

/-- The system after `stop()` on the started monitor. -/
def afterStopA : MonitorState × GlobalState × List Event :=
  stop startedMonitorA.1 startedMonitorA.2.1

/-- A fresh monitor on which `start()` found the disabled config. -/
def monitorDisabled : MonitorState :=
  (start (initialMonitor g0) g0 (some cfgDisabled)).1

/-- A concrete report for send-path witnesses. -/
def sampleReport : ErrorReport :=
  { message := "boom"
    errorType := "customError"
    severity := .medium
    environment := "production"
    accessToken := "tokenA"
    timestamp := 6000
    stack := none
    projectInfo := some pinfoEmpty
    metadata := none }

/-- C10: when `load` finds the file absent, or a filesystem/parse step
throws, it returns `null` and the previously loaded in-memory config is
untouched: `getConfig` still returns it and `isEnabled` still reflects its
`enabled` field. -/
theorem c10_load_failure_keeps_config (st : ConfigManagerState)
    (c : WingmanConfig) (r : FsLoadResult) (hc : st.config = some c)
    (hr : ∀ cfg, r ≠ FsLoadResult.ok cfg) :
    (ConfigManager.load st r).2.1 = none ∧
    (ConfigManager.load st r).1.config = some c ∧
    ConfigManager.getConfig (ConfigManager.load st r).1 = some c ∧
    ConfigManager.isEnabled (ConfigManager.load st r).1
      = (c.enabled == some true) := by
  cases r with
  | absent =>
    simp [ConfigManager.load, ConfigManager.getConfig,
      ConfigManager.isEnabled, hc]
  | fsFailure e =>
    simp [ConfigManager.load, ConfigManager.getConfig,
      ConfigManager.isEnabled, hc]
  | ok cfg => exact absurd rfl (hr cfg)

/-- Witness for `c10_load_failure_keeps_config` at a concrete state and the
file-absent outcome. -/
theorem c10_load_failure_witness :
    (ConfigManagerState.mk (some cfgA)).config = some cfgA ∧
    ((ConfigManager.load (ConfigManagerState.mk (some cfgA)) .absent).2.1
        = none ∧
      (ConfigManager.load (ConfigManagerState.mk (some cfgA))
          .absent).1.config = some cfgA ∧
      ConfigManager.getConfig
          (ConfigManager.load (ConfigManagerState.mk (some cfgA)) .absent).1
        = some cfgA ∧
      ConfigManager.isEnabled
          (ConfigManager.load (ConfigManagerState.mk (some cfgA)) .absent).1
        = (cfgA.enabled == some true)) :=
  ⟨rfl, c10_load_failure_keeps_config (ConfigManagerState.mk (some cfgA))
    cfgA .absent rfl (fun _ h => FsLoadResult.noConfusion h)⟩

theorem setupErrorHandlers_monitor_fields (m : MonitorState)
    (g : GlobalState) :
    (setupErrorHandlers m g).1.config = m.config ∧
    (setupErrorHandlers m g).1.isStarted = m.isStarted ∧
    (setupErrorHandlers m g).1.recentLogs = m.recentLogs := by
  simp only [setupErrorHandlers]
  split <;> split <;> exact ⟨rfl, rfl, rfl⟩

/-- C8: `isActive()` is true iff the monitor is started and the loaded
config's `enabled` is `true`; it is false on a fresh monitor; a `start()`
that finds no config, or finds `enabled: false`, leaves the monitor stopped
with the global handler slots unchanged (nothing installed) and `isActive`
false; after a successful `start()` from stopped with an enabled config,
`isActive` is true. -/
theorem c8_isActive_start (m : MonitorState) (g : GlobalState)
    (cfgOff cfgOn : WingmanConfig) :
    (isActive m = true ↔
      (m.isStarted = true ∧
        m.config.bind WingmanConfig.enabled = some true)) ∧
    isActive (initialMonitor g) = false ∧
    (m.isStarted = false →
      (start m g none).1.isStarted = false ∧ (start m g none).2.1 = g) ∧
    (m.isStarted = false → cfgOff.enabled = some false →
      (start m g (some cfgOff)).1.isStarted = false ∧
      (start m g (some cfgOff)).2.1 = g ∧
      isActive (start m g (some cfgOff)).1 = false) ∧
    (m.isStarted = false → cfgOn.enabled = some true →
      isActive (start m g (some cfgOn)).1 = true) := by
  refine ⟨?_, ?_, ?_, ?_, ?_⟩
  · simp [isActive]
  · simp [isActive, initialMonitor]
  · intro h
    exact ⟨h, rfl⟩
  · intro h he
    simp [start, he, isActive, h]
  · intro h he
    simp [start, h, he, isActive]
    rw [(setupErrorHandlers_monitor_fields _ _).1]
    simp [he]

/-- Witness for `c8_isActive_start` at concrete inputs: a fresh monitor in
`g0`, the disabled config and the enabled config. -/
theorem c8_isActive_start_witness :
    (initialMonitor g0).isStarted = false ∧
    cfgDisabled.enabled = some false ∧
    cfgA.enabled = some true ∧
    (start (initialMonitor g0) g0 none).1.isStarted = false ∧
    (start (initialMonitor g0) g0 none).2.1 = g0 ∧
    (start (initialMonitor g0) g0 (some cfgDisabled)).1.isStarted = false ∧
    (start (initialMonitor g0) g0 (some cfgDisabled)).2.1 = g0 ∧
    isActive (start (initialMonitor g0) g0 (some cfgDisabled)).1 = false ∧
    isActive (start (initialMonitor g0) g0 (some cfgA)).1 = true :=
  ⟨by decide, by decide, by decide,
    ((c8_isActive_start (initialMonitor g0) g0 cfgDisabled cfgA).2.2.1
      (by decide)).1,
    ((c8_isActive_start (initialMonitor g0) g0 cfgDisabled cfgA).2.2.1
      (by decide)).2,
    ((c8_isActive_start (initialMonitor g0) g0 cfgDisabled cfgA).2.2.2.1
      (by decide) (by decide)).1,
    ((c8_isActive_start (initialMonitor g0) g0 cfgDisabled cfgA).2.2.2.1
      (by decide) (by decide)).2.1,
    ((c8_isActive_start (initialMonitor g0) g0 cfgDisabled cfgA).2.2.2.1
      (by decide) (by decide)).2.2,
    (c8_isActive_start (initialMonitor g0) g0 cfgDisabled cfgA).2.2.2.2
      (by decide) (by decide)⟩

/-- C9, counterexample: on an already-started monitor, `start()` reloads the
config before the started check, so the in-memory config changes — here from
`cfgA` to `cfgB` — refuting "the loaded in-memory config ... is left
unchanged". -/
theorem c9_counterexample :
    startedMonitorA.1.isStarted = true ∧
    startedMonitorA.1.config = some cfgA ∧
    (start startedMonitorA.1 startedMonitorA.2.1 (some cfgB)).1.config
      = some cfgB ∧
    cfgB ≠ cfgA := by
  refine ⟨by decide, by decide, by decide, by decide⟩

/-- C9 (amended): `start()` on an already-started monitor leaves the hooks,
the started flag, the log buffer and every other monitor field unchanged and
leaves the global handler slots untouched, but it does overwrite the
in-memory config with the fresh load result. -/
theorem c9_start_already_started_amended (m : MonitorState) (g : GlobalState)
    (loaded : Option WingmanConfig) (h : m.isStarted = true) :
    (start m g loaded).1 = { m with config := loaded } ∧
    (start m g loaded).2.1 = g := by
  cases loaded with
  | none => exact ⟨rfl, rfl⟩
  | some cfg =>
    by_cases he : cfg.enabled = some true
    · simp [start, he, h]
    · have hb : (cfg.enabled != some true) = true := by
        simp [bne_iff_ne, he]
      simp [start, hb]

/-- Witness for `c9_start_already_started_amended` on the started monitor
with a fresh load result `cfgB`. -/
theorem c9_start_already_started_witness :
    startedMonitorA.1.isStarted = true ∧
    ((start startedMonitorA.1 g0 (some cfgB)).1
        = { startedMonitorA.1 with config := some cfgB } ∧
      (start startedMonitorA.1 g0 (some cfgB)).2.1 = g0) :=
  ⟨by decide,
    c9_start_already_started_amended startedMonitorA.1 g0 (some cfgB)
      (by decide)⟩

/-- C5: evaluation at the failing input. `stop()` when not started changes
nothing, as claimed; but after `start()` (in a Node-style global state) the
two process listeners that `start` registered are the `.bind(this)` copies,
`removeListener` is called with the unbound methods and removes nothing, and
the three console slots are not restored — `console.error` still holds the
monitor's wrapper after `stop()`, not the saved pre-start original. -/
theorem c5_stop_leaves_hooks_installed :
    stop (initialMonitor g0) g0 = (initialMonitor g0, g0, []) ∧
    startedMonitorA.1.isStarted = true ∧
    afterStopA.1.isStarted = false ∧
    startedMonitorA.2.1.processListeners
      = [(.uncaughtException, .bound .uncaught 10),
         (.unhandledRejection, .bound .unhandledRej 11)] ∧
    afterStopA.2.1.processListeners
      = [(.uncaughtException, .bound .uncaught 10),
         (.unhandledRejection, .bound .unhandledRej 11)] ∧
    startedMonitorA.1.originalConsoleError = FuncV.hostFn 0 ∧
    afterStopA.2.1.consoleError = FuncV.wrapper .errorK 12 ∧
    afterStopA.2.1.consoleError ≠ startedMonitorA.1.originalConsoleError := by
  refine ⟨by decide, by decide, by decide, by decide, by decide, by decide,
    by decide, by decide⟩

/-- C1, counterexample: after `start()` found a config with
`enabled: false`, the monitor is not started and not active, yet
`reportCustomError` still issues a POST (the send path only checks that a
config is loaded). -/
theorem c1_counterexample :
    monitorDisabled.isStarted = false ∧
    isActive monitorDisabled = false ∧
    monitorDisabled.config = some cfgDisabled ∧
    cfgDisabled.enabled = some false ∧
    (reportCustomError monitorDisabled ("boom") none none 6000 none pinfoEmpty
        none .success).countP isPost = 1 := by
  refine ⟨by decide, by decide, by decide, by decide, by decide⟩

/-- C1 (amended): a report is sent through the shared send path only while a
config is loaded in memory; neither `enabled` nor the started state is
checked there, so `reportCustomError` results in exactly one POST whenever a
config is loaded — even one with `enabled: false`, and even before `start()`
has transitioned the monitor to started — and in no POST otherwise. -/
theorem c1_send_gated_by_config_only (m : MonitorState) (errMessage : String)
    (errStack : Option String) (metadata : Option (List (String × String)))
    (now : Nat) (win : Option WindowInfo) (pinfo : ProjectInfo)
    (webhookUrlEnv : Option String) (outcome : HttpOutcome) :
    (reportCustomError m errMessage errStack metadata now win pinfo
        webhookUrlEnv outcome).countP isPost
      = if m.config.isSome then 1 else 0 :=
  reportCustomError_posts m errMessage errStack metadata now win pinfo
    webhookUrlEnv outcome

/-- C6: the report `reportCustomError` builds always has severity `medium`
and errorType `customError`, and it is handed to the send path without
consulting `shouldReportError` — even on an input the filter rejects, the
POST is still issued whenever a config is loaded. -/
theorem c6_reportCustomError_bypasses_filter (m : MonitorState)
    (errMessage : String) (errStack : Option String)
    (metadata : Option (List (String × String))) (now : Nat)
    (win : Option WindowInfo) (pinfo : ProjectInfo)
    (webhookUrlEnv : Option String) (outcome : HttpOutcome)
    (nodeEnv : Option String) (fctx : Option FilterContext)
    (_hrej : shouldReportError nodeEnv errMessage fctx = false)
    (hcfg : m.config.isSome = true) :
    (customErrorReport m errMessage errStack metadata now win pinfo).severity
      = Severity.medium ∧
    (customErrorReport m errMessage errStack metadata now win
        pinfo).errorType = "customError" ∧
    (reportCustomError m errMessage errStack metadata now win pinfo
        webhookUrlEnv outcome).countP isPost = 1 := by
  refine ⟨rfl, rfl, ?_⟩
  rw [reportCustomError_posts, hcfg]
  rfl

/-- Witness for `c6_reportCustomError_bypasses_filter`: an error whose
message the filter rejects in a development classification, reported on a
monitor holding a disabled config, still POSTs. -/
theorem c6_reportCustomError_witness :
    shouldReportError (some ("development")) "boom" none = false ∧
    monitorDisabled.config.isSome = true ∧
    ((customErrorReport monitorDisabled ("boom") none none 6000 none
        pinfoEmpty).severity = Severity.medium ∧
      (customErrorReport monitorDisabled ("boom") none none 6000 none
        pinfoEmpty).errorType = "customError" ∧
      (reportCustomError monitorDisabled ("boom") none none 6000 none
        pinfoEmpty none .success).countP isPost = 1) :=
  ⟨by decide, by decide,
    c6_reportCustomError_bypasses_filter monitorDisabled ("boom") none none
      6000 none pinfoEmpty none .success (some ("development")) none
      (by decide) (by decide)⟩

/-- C7: the send path is a no-op when no config is loaded; with a config it
issues exactly one POST per call whatever the delivery outcome (no retry, no
queueing), and on any failure — non-2xx status such as HTTP 500, network
error, or timeout — it returns normally with the failure logged through
`console.error` rather than raised (the whole body is one try/catch and the
function's result is an ordinary event list on every outcome). -/
theorem c7_reportError_contract (webhookUrlEnv : Option String)
    (r : ErrorReport) (outcome : HttpOutcome) (cfg : WingmanConfig)
    (hfail : outcome ≠ HttpOutcome.success) :
    reportError none webhookUrlEnv r outcome = [] ∧
    (reportError (some cfg) webhookUrlEnv r outcome).countP isPost = 1 ∧
    reportError (some cfg) webhookUrlEnv r outcome
      = [.post (jsOrString webhookUrlEnv defaultWebhookUrl) (mkPayload r),
         .consoleErrorEv ("Wingman: Failed to report error: "
           ++ axiosErrorMessage outcome)] := by
  refine ⟨rfl, ?_, ?_⟩
  · cases outcome <;> rfl
  · cases outcome with
    | success => exact absurd rfl hfail
    | httpFailure status => rfl
    | networkFailure msg => rfl
    | timeoutFailure => rfl

/-- Witness for `c7_reportError_contract`: a POST that comes back HTTP 500
is logged and not raised, and exactly one POST was issued. -/
theorem c7_reportError_witness :
    HttpOutcome.httpFailure 500 ≠ HttpOutcome.success ∧
    (reportError none none sampleReport (.httpFailure 500) = [] ∧
      (reportError (some cfgA) none sampleReport
          (.httpFailure 500)).countP isPost = 1 ∧
      reportError (some cfgA) none sampleReport (.httpFailure 500)
        = [.post (jsOrString none defaultWebhookUrl) (mkPayload sampleReport),
           .consoleErrorEv ("Wingman: Failed to report error: "
             ++ axiosErrorMessage (.httpFailure 500))]) :=
  ⟨by decide,
    c7_reportError_contract none sampleReport (.httpFailure 500) cfgA
      (by decide)⟩
